import Mathlib

/-!
Verification of the CSC469 A3 replicated key-value store control plane
(src/a3/mserver.c: coordinator lines 1-799, key-value server lines 800+).

The coordinator (metadata server) state and its handlers
(process_client_message for locate requests, process_server_message for
heartbeats and recovery acknowledgments, handle_switch_primary, the failure
detection pass of run_mserver_loop) are embedded as pure functions over an
explicit MState; external I/O outcomes (send_set_secondary success, spawn
success, clock readings) are passed as parameters.  The key-value server's
request handlers (process_client_message, process_server_message,
send_table_task) are embedded likewise over an explicit ServerState, with the
outcome of the synchronous PUT forward passed as a parameter.
-/

namespace A3

/-- Modelled from the spec: the placement function owner(key) = H(key) mod N
(key_server_id, declared in util.h which is not under src/).  A key is
represented by its hash value H(key), so the function is the mod. -/
def key_server_id (hkey : Nat) (n : Nat) : Nat := hkey % n

/-- Modelled from the spec: secondary(i) = (i + 1) mod N (secondary_server_id,
declared in util.h which is not under src/). -/
def secondary_server_id (sid : Nat) (n : Nat) : Nat := (sid + 1) % n

/-- Modelled from the spec: primary_of(i) = (i - 1 + N) mod N
(primary_server_id, declared in util.h which is not under src/). -/
def primary_server_id (sid : Nat) (n : Nat) : Nat := (sid + n - 1) % n

/-- The kv_server_state enumeration from defs.h (not under src/); its values
are read off from their uses in mserver.c and server.c: KV_SERVER_ONLINE (the
calloc-zeroed initial status), KV_SERVER_FAILED, KV_SERVER_RECON,
KV_UPDATING_PRIMARY, KV_UPDATING_SECONDARY, KV_SWITCHING_PRIMARY. -/
inductive KVState
  | online
  | failed
  | recon
  | updatingPrimary
  | updatingSecondary
  | switchingPrimary
deriving DecidableEq, Repr

/-- Operation statuses from defs.h as used by the server request handlers. -/
inductive OpStatus
  | success
  | keyNotFound
  | outOfSpace
  | serverFailure
deriving DecidableEq, Repr

/-- Client / peer operation kinds (OP_NOOP, OP_GET, OP_PUT). -/
inductive OpType
  | opNoop
  | opGet
  | opPut
deriving DecidableEq, Repr

/-- An operation_request: kind, key (represented by its hash value), value. -/
structure OperationRequest where
  optype : OpType
  key : Nat
  value : String
deriving DecidableEq, Repr

/-- An operation_response: status and (possibly empty) value payload. -/
structure OperationResponse where
  status : OpStatus
  value : String
deriving DecidableEq, Repr

/-- Extract the host part of a "user@host" name: everything after the first
at sign, or the whole list if there is none (the strchr '@' idiom used
throughout mserver.c). -/
def after_first_at : List Char → Option (List Char)
  | [] => none
  | c :: rest => if c = '@' then some rest else after_first_at rest

/-- Host-name extraction used before every reply and spawn in mserver.c:
host = (at == NULL) ? host_name : (at + 1). -/
def strip_user (h : String) : String :=
  String.mk ((after_first_at h.data).getD h.data)

/-- Modelled from the spec: the hash table of hash.h (not under src/) is a
black box with insert/replace and lookup; embedded as an association list
with last-write-wins insert.  Allocation failure and per-key locking are not
modelled (the embedding is single-threaded). -/
def hash_put (tbl : List (Nat × String)) (k : Nat) (v : String) :
    List (Nat × String) :=
  (k, v) :: tbl.filter (fun kv => kv.1 != k)

/-- Modelled from the spec: hash-table lookup (hash_get of hash.h, not under
src/). -/
def hash_get (tbl : List (Nat × String)) (k : Nat) : Option String :=
  (tbl.find? (fun kv => kv.1 == k)).map (fun kv => kv.2)

namespace Mserver

/-- The server_node structure of mserver.c (dynamic fields; socket fds and the
child pid are OS handles and are not part of the logical state). -/
structure ServerNode where
  host_name : String
  sport : Nat
  cport : Nat
  mport : Nat
  last_heartbeat : Nat
  server_status : KVState
  updated_primary_accepted : Bool
  updated_secondary_accepted : Bool
  ignore_put : Bool
deriving DecidableEq, Repr

/-- The coordinator's state: num_servers and the server_nodes array
(indexed total function; indices at or above numServers are irrelevant). -/
structure MState where
  numServers : Nat
  nodes : Nat → ServerNode

/-- Update the node at index i (the server_nodes[i].field = v assignments). -/
def updNode (s : MState) (i : Nat) (f : ServerNode → ServerNode) : MState :=
  { s with nodes := fun j => if j = i then f (s.nodes j) else s.nodes j }

/-- The server id a locate request for hkey is routed to (mserver.c
process_client_message lines 477-483): the key's owner, redirected to its
secondary replica while the owner's status is not KV_SERVER_ONLINE. -/
def routed_server_id (s : MState) (hkey : Nat) : Nat :=
  let sid0 := key_server_id hkey s.numServers
  if (s.nodes sid0).server_status ≠ KVState.online then
    secondary_server_id sid0 s.numServers
  else sid0

/-- The coordinator's process_client_message (mserver.c lines 467-504): route
the key, drop the request (no reply; the connection is simply closed) when the
routed node has ignore_put set, otherwise answer with the routed node's
stripped host name and client port. -/
def process_client_message (s : MState) (hkey : Nat) : Option (String × Nat) :=
  let sid := routed_server_id s hkey
  if (s.nodes sid).ignore_put = true then none
  else some (strip_user (s.nodes sid).host_name, (s.nodes sid).cport)

/-- handle_switch_primary (mserver.c lines 506-533): set ignore_put on the
replacement Saa and the surviving secondary Sb, send SWITCH_PRIMARY to Sb
(its result is ignored by the source), then send SET_SECONDARY to Saa; on
failure return at once, on success clear both ignore_put flags and mark Saa
KV_SERVER_ONLINE.  The outcome of send_set_secondary is the parameter
setSecondaryOk. -/
def handle_switch_primary (s : MState) (Saa Sb : Nat) (setSecondaryOk : Bool) :
    MState :=
  let s1 := updNode (updNode s Saa (fun n => { n with ignore_put := true }))
      Sb (fun n => { n with ignore_put := true })
  if setSecondaryOk then
    let s2 := updNode (updNode s1 Saa (fun n => { n with ignore_put := false }))
        Sb (fun n => { n with ignore_put := false })
    updNode s2 Saa (fun n => { n with server_status := KVState.online })
  else s1

/-- The mserver_ctrl_request messages received by the coordinator
(HEARTBEAT carries the clock value time(NULL) read at receipt). -/
inductive MServerMsg
  | heartbeat (sid : Nat) (now : Nat)
  | updatedPrimary (sid : Nat)
  | updatePrimaryFailed (sid : Nat)
  | updatedSecondary (sid : Nat)
  | updateSecondaryFailed (sid : Nat)

/-- The coordinator's process_server_message (mserver.c lines 536-601).
Returns the new state and whether handle_switch_primary was invoked (the
switch was begun).  HEARTBEAT records the clock; UPDATED_PRIMARY from Sb and
UPDATED_SECONDARY from Sc each record their acknowledgment flag on the
affected node Saa and invoke the switch exactly when both flags are now set;
the UPDATE_*_FAILED cases are TODO in the source (no-ops). -/
def process_server_message (s : MState) (msg : MServerMsg)
    (setSecondaryOk : Bool) : MState × Bool :=
  match msg with
  | MServerMsg.heartbeat sid now =>
      (updNode s sid (fun n => { n with last_heartbeat := now }), false)
  | MServerMsg.updatedPrimary sid =>
      let Sb := sid
      let Saa := primary_server_id Sb s.numServers
      let s1 := updNode s Saa (fun n => { n with updated_primary_accepted := true })
      if (s1.nodes Saa).updated_primary_accepted = true ∧
         (s1.nodes Saa).updated_secondary_accepted = true then
        (handle_switch_primary s1 Saa Sb setSecondaryOk, true)
      else (s1, false)
  | MServerMsg.updatePrimaryFailed _ => (s, false)
  | MServerMsg.updatedSecondary sid =>
      let Sc := sid
      let Saa := secondary_server_id Sc s.numServers
      let Sb := secondary_server_id Saa s.numServers
      let s1 := updNode s Saa (fun n => { n with updated_secondary_accepted := true })
      if (s1.nodes Saa).updated_primary_accepted = true ∧
         (s1.nodes Saa).updated_secondary_accepted = true then
        (handle_switch_primary s1 Saa Sb setSecondaryOk, true)
      else (s1, false)
  | MServerMsg.updateSecondaryFailed _ => (s, false)

/-- The fixed failure-detection threshold used by run_mserver_loop
(mserver.c line 605): static const int heartbeat_check_diff = 2. -/
def heartbeat_check_diff : Nat := 2

/-- The default for the -t option (mserver.c line 30):
static const int default_server_timeout = 3. -/
def default_server_timeout : Nat := 3

/-- The server_timeout value after parse_args (mserver.c line 62): the -t
argument if nonzero, else the default.  (atoi of a missing option leaves 0.) -/
def effective_server_timeout (tOpt : Nat) : Nat :=
  if tOpt ≠ 0 then tOpt else default_server_timeout

/-- The failure-detection test of run_mserver_loop (mserver.c line 658):
node->last_heartbeat && difftime(now, node->last_heartbeat) > heartbeat_check_diff.
Note that it compares against the constant heartbeat_check_diff, not against
the parsed server_timeout. -/
def heartbeat_timed_out (node : ServerNode) (now : Nat) : Bool :=
  decide (node.last_heartbeat ≠ 0) &&
  decide (heartbeat_check_diff < now - node.last_heartbeat)

/-- The per-node body of the failure-detection pass (mserver.c lines 655-720):
if the heartbeat check fails, mark the node KV_SERVER_FAILED; then respawn it
(spawn outcome is the parameter spawnOk): on spawn failure continue (the node
stays FAILED), on success keep host/ports, stamp last_heartbeat with the
current time, set status KV_SERVER_RECON and clear the acknowledgment and
ignore_put flags.  (UPDATE_PRIMARY / UPDATE_SECONDARY are then sent to the
neighbors; their results are ignored by the source and change no coordinator
state.) -/
def detect_node (node : ServerNode) (now : Nat) (spawnOk : Bool) : ServerNode :=
  if heartbeat_timed_out node now then
    if spawnOk then
      { node with
        last_heartbeat := now
        server_status := KVState.recon
        updated_primary_accepted := false
        updated_secondary_accepted := false
        ignore_put := false }
    else { node with server_status := KVState.failed }
  else node

/-- One failure-detection pass over all servers (the for loop of
run_mserver_loop, lines 655-721). -/
def mtick (s : MState) (now : Nat) (spawnOk : Nat → Bool) : MState :=
  { s with nodes := fun i =>
      if i < s.numServers then detect_node (s.nodes i) now (spawnOk i)
      else s.nodes i }

/-- The events consumed by the coordinator's main loop: a control message from
a server (with the outcome of any send_set_secondary it may trigger), a
failure-detection pass at a given clock value, or a client locate request
(which reads but never writes coordinator state). -/
inductive CoordEvent
  | srvMsg (msg : MServerMsg) (setSecondaryOk : Bool)
  | tick (now : Nat) (spawnOk : Nat → Bool)
  | clientLocate (hkey : Nat)

/-- One step of the coordinator's main loop on one event. -/
def mstep (s : MState) (e : CoordEvent) : MState :=
  match e with
  | CoordEvent.srvMsg m ok => (process_server_message s m ok).1
  | CoordEvent.tick now spawnOk => mtick s now spawnOk
  | CoordEvent.clientLocate _ => s

/-- Run the coordinator over a list of events. -/
def mrun (s : MState) (es : List CoordEvent) : MState := es.foldl mstep s

/-- The event is a HEARTBEAT from server i. -/
def isHeartbeatFor (i : Nat) : CoordEvent → Prop
  | CoordEvent.srvMsg (MServerMsg.heartbeat sid _) _ => sid = i
  | _ => False

end Mserver

namespace Server

/-- The key-value server's globals that its request handlers read and write
(server.c): own id, cluster size, recovery state, and the two hash tables. -/
structure ServerState where
  server_id : Nat
  num_servers : Nat
  state : KVState
  primary_hash : List (Nat × String)
  secondary_hash : List (Nat × String)
deriving DecidableEq, Repr

/-- The key-ownership rejection test of the server's process_client_message
(server.c lines 1149-1161 of the concatenated source): reject when this is not
the owner, unless the server is in KV_UPDATING_PRIMARY and is the secondary of
the key's owner. -/
def client_key_rejected (s : ServerState) (req : OperationRequest) : Prop :=
  (s.state ≠ KVState.updatingPrimary ∧
   key_server_id req.key s.num_servers ≠ s.server_id) ∨
  (s.state = KVState.updatingPrimary ∧
   key_server_id req.key s.num_servers ≠ s.server_id ∧
   secondary_server_id (key_server_id req.key s.num_servers) s.num_servers ≠ s.server_id)

instance (s : ServerState) (req : OperationRequest) :
    Decidable (client_key_rejected s req) := by
  unfold client_key_rejected
  exact inferInstance

/-- Targetting the secondary set as a pseudo-primary set (server.c line 1164):
the server is in KV_UPDATING_PRIMARY and is the secondary of the key's owner. -/
def secondary_as_primary (s : ServerState) (req : OperationRequest) : Prop :=
  s.state = KVState.updatingPrimary ∧
  secondary_server_id (key_server_id req.key s.num_servers) s.num_servers = s.server_id

instance (s : ServerState) (req : OperationRequest) :
    Decidable (secondary_as_primary s req) := by
  unfold secondary_as_primary
  exact inferInstance

/-- The outcome of the synchronous PUT forward to the replica partner
(server.c lines 1223-1239): no valid partner fd (no forward attempted), the
recv_msg on the forward connection failing, or the partner's reply status. -/
inductive ForwardOutcome
  | noPartner
  | connFail
  | reply (st : OpStatus)
deriving DecidableEq, Repr

/-- The key-value server's process_client_message (server.c lines 1132-1260).
Result: the response sent to the client, if any (the source returns without
sending anything when the forward's recv fails or its status is not SUCCESS),
and the new state.  NOOP answers SUCCESS; GET answers the stored value or
KEY_NOT_FOUND; PUT inserts locally, then consults the forward outcome:
no partner means reply SUCCESS at once, a failed recv or a non-SUCCESS
partner reply means return with no response (the local insert is kept). -/
def process_client_message (s : ServerState) (req : OperationRequest)
    (fwd : ForwardOutcome) : Option OperationResponse × ServerState :=
  if client_key_rejected s req then
    (some { status := OpStatus.serverFailure, value := "" }, s)
  else
    match req.optype with
    | OpType.opNoop => (some { status := OpStatus.success, value := "" }, s)
    | OpType.opGet =>
        match hash_get (if secondary_as_primary s req then s.secondary_hash
                        else s.primary_hash) req.key with
        | none => (some { status := OpStatus.keyNotFound, value := "" }, s)
        | some v => (some { status := OpStatus.success, value := v }, s)
    | OpType.opPut =>
        let s2 := if secondary_as_primary s req then
            { s with secondary_hash := hash_put s.secondary_hash req.key req.value }
          else
            { s with primary_hash := hash_put s.primary_hash req.key req.value }
        match fwd with
        | ForwardOutcome.noPartner =>
            (some { status := OpStatus.success, value := "" }, s2)
        | ForwardOutcome.connFail => (none, s2)
        | ForwardOutcome.reply st =>
            if st = OpStatus.success then
              (some { status := OpStatus.success, value := "" }, s2)
            else (none, s2)

/-- The key-value server's process_server_message (server.c lines 1264-1349).
Result: whether the connection stays open, the response sent (if any), and the
new state.  OP_NOOP is the end-of-stream sentinel: return false (close the
connection) with no response.  OP_PUT writes the primary set when this server
owns the key, the secondary set when it is the owner's secondary, and rejects
with SERVER_FAILURE otherwise.  Any other kind answers SERVER_FAILURE. -/
def process_server_message (s : ServerState) (req : OperationRequest) :
    Bool × Option OperationResponse × ServerState :=
  match req.optype with
  | OpType.opNoop => (false, none, s)
  | OpType.opPut =>
      let primary_srv_id := key_server_id req.key s.num_servers
      let secondary_srv_id := secondary_server_id primary_srv_id s.num_servers
      if s.server_id ≠ primary_srv_id ∧ s.server_id ≠ secondary_srv_id then
        (true, some { status := OpStatus.serverFailure, value := "" }, s)
      else if s.server_id = primary_srv_id then
        (true, some { status := OpStatus.success, value := "" },
         { s with primary_hash := hash_put s.primary_hash req.key req.value })
      else
        (true, some { status := OpStatus.success, value := "" },
         { s with secondary_hash := hash_put s.secondary_hash req.key req.value })
  | OpType.opGet =>
      (true, some { status := OpStatus.serverFailure, value := "" }, s)

/-- A message sent on the peer connection during recovery streaming. -/
inductive PeerMsg
  | putMsg (key : Nat) (value : String)
  | noopMsg
deriving DecidableEq, Repr

/-- The stream of peer messages produced by send_table_task together with
send_table_iterator_f (mserver.c lines 938-962 of the concatenated source):
one OP_PUT per (key, value) of the chosen table, and nothing else. -/
def send_table_msgs (table : List (Nat × String)) : List PeerMsg :=
  table.map (fun kv => PeerMsg.putMsg kv.1 kv.2)

/-- The control message send_table_task sends to the metadata server after the
stream (mserver.c lines 963-968): UPDATED_SECONDARY when streaming the primary
set (send_primary), UPDATED_PRIMARY when streaming the secondary set. -/
def send_table_ctrl (send_primary : Bool) (sid : Nat) : Mserver.MServerMsg :=
  if send_primary then Mserver.MServerMsg.updatedSecondary sid
  else Mserver.MServerMsg.updatedPrimary sid

end Server

/-- A concrete server node used in witnesses and counterexamples. -/
def exNode (cp : Nat) : Mserver.ServerNode :=
  { host_name := "localhost"
    sport := 2000
    cport := cp
    mport := 3000
    last_heartbeat := 0
    server_status := KVState.online
    updated_primary_accepted := false
    updated_secondary_accepted := false
    ignore_put := false }

/-- A 3-server coordinator state fresh from read_config_file: all statuses
ONLINE (calloc zeroes server_status), all heartbeat stamps 0, all flags off. -/
def mAllOnline : Mserver.MState :=
  { numServers := 3
    nodes := fun i =>
      if i = 0 then exNode 1000 else if i = 1 then exNode 1001 else exNode 1002 }

/-- A concrete coordinator history: server 0 heartbeats at time 10, then a
failure-detection pass runs at time 100 and its respawn fails, leaving server 0
marked KV_SERVER_FAILED. -/
def failTrace : List Mserver.CoordEvent :=
  [Mserver.CoordEvent.srvMsg (Mserver.MServerMsg.heartbeat 0 10) true,
   Mserver.CoordEvent.tick 100 (fun _ => false)]

/-- A 3-server coordinator state in which both server 0 and server 1 (the
secondary replica of shard 0) are FAILED: reachable when both stop
heartbeating and their respawns fail. -/
def mTwoFailed : Mserver.MState :=
  { numServers := 3
    nodes := fun i =>
      if i = 0 then { exNode 1000 with server_status := KVState.failed }
      else if i = 1 then { exNode 1001 with server_status := KVState.failed }
      else exNode 1002 }

/-- A concrete key-value server state (server 0 of 3, NORMAL operation). -/
def exSrv : Server.ServerState :=
  { server_id := 0
    num_servers := 3
    state := KVState.online
    primary_hash := []
    secondary_hash := [] }

/-- A key-value server acting as interim primary: server 1 of 3 in
KV_UPDATING_PRIMARY (it is the secondary of shard 0, whose primary is being
replaced). -/
def exSrvInterim : Server.ServerState :=
  { server_id := 1
    num_servers := 3
    state := KVState.updatingPrimary
    primary_hash := []
    secondary_hash := [] }

/-- A concrete PUT request for key 0 (owned by server 0 when N = 3). -/
def exPutReq : OperationRequest :=
  { optype := OpType.opPut, key := 0, value := "v" }

/-- A concrete GET request for key 0. -/
def exGetReq0 : OperationRequest :=
  { optype := OpType.opGet, key := 0, value := "" }

/-- A concrete GET request for key 1 (owned by server 1 when N = 3). -/
def exGetReq1 : OperationRequest :=
  { optype := OpType.opGet, key := 1, value := "" }

end A3

namespace A3

open Mserver Server

/-! Helper lemmas about the coordinator state embedding. -/

theorem updNode_nodes_same (s : MState) (i : Nat) (f : ServerNode → ServerNode) :
    (updNode s i f).nodes i = f (s.nodes i) := by
  simp [updNode]

theorem updNode_nodes_ne (s : MState) (i j : Nat) (f : ServerNode → ServerNode)
    (h : j ≠ i) : (updNode s i f).nodes j = s.nodes j := by
  simp [updNode, h]

theorem updNode_numServers (s : MState) (i : Nat) (f : ServerNode → ServerNode) :
    (updNode s i f).numServers = s.numServers := rfl

theorem hsp_numServers (s : MState) (a b : Nat) (ok : Bool) :
    (handle_switch_primary s a b ok).numServers = s.numServers := by
  cases ok <;> rfl

theorem hsp_last_heartbeat (s : MState) (a b j : Nat) (ok : Bool) :
    ((handle_switch_primary s a b ok).nodes j).last_heartbeat =
      (s.nodes j).last_heartbeat := by
  cases ok <;> by_cases hja : j = a <;> by_cases hjb : j = b <;>
    simp_all [handle_switch_primary, updNode]

theorem hsp_host_name (s : MState) (a b j : Nat) (ok : Bool) :
    ((handle_switch_primary s a b ok).nodes j).host_name =
      (s.nodes j).host_name := by
  cases ok <;> by_cases hja : j = a <;> by_cases hjb : j = b <;>
    simp_all [handle_switch_primary, updNode]

theorem hsp_cport (s : MState) (a b j : Nat) (ok : Bool) :
    ((handle_switch_primary s a b ok).nodes j).cport = (s.nodes j).cport := by
  cases ok <;> by_cases hja : j = a <;> by_cases hjb : j = b <;>
    simp_all [handle_switch_primary, updNode]

theorem hsp_status_or (s : MState) (a b j : Nat) (ok : Bool) :
    ((handle_switch_primary s a b ok).nodes j).server_status =
      (s.nodes j).server_status ∨
    ((handle_switch_primary s a b ok).nodes j).server_status = KVState.online := by
  cases ok <;> by_cases hja : j = a <;> by_cases hjb : j = b <;>
    simp_all [handle_switch_primary, updNode]

theorem hsp_true_status_a (s : MState) (a b : Nat) :
    ((handle_switch_primary s a b true).nodes a).server_status = KVState.online := by
  by_cases hba : b = a <;> simp_all [handle_switch_primary, updNode]

theorem hsp_true_ignore_a (s : MState) (a b : Nat) :
    ((handle_switch_primary s a b true).nodes a).ignore_put = false := by
  by_cases hba : b = a <;> simp_all [handle_switch_primary, updNode] <;>
    split <;> rfl

theorem hsp_true_ignore_b (s : MState) (a b : Nat) :
    ((handle_switch_primary s a b true).nodes b).ignore_put = false := by
  by_cases hba : b = a <;> simp_all [handle_switch_primary, updNode]

theorem hsp_false_ignore_a (s : MState) (a b : Nat) :
    ((handle_switch_primary s a b false).nodes a).ignore_put = true := by
  by_cases hba : b = a <;> simp_all [handle_switch_primary, updNode] <;>
    split <;> rfl

theorem hsp_false_ignore_b (s : MState) (a b : Nat) :
    ((handle_switch_primary s a b false).nodes b).ignore_put = true := by
  by_cases hba : b = a <;> simp_all [handle_switch_primary, updNode]

theorem hsp_false_status (s : MState) (a b j : Nat) :
    ((handle_switch_primary s a b false).nodes j).server_status =
      (s.nodes j).server_status := by
  by_cases hja : j = a <;> by_cases hjb : j = b <;>
    simp_all [handle_switch_primary, updNode]

theorem lh_zero_not_timed_out (node : ServerNode) (h : node.last_heartbeat = 0)
    (now : Nat) : heartbeat_timed_out node now = false := by
  simp [heartbeat_timed_out, h]


theorem updNode_lh_preserve (s : MState) (i j : Nat) (f : ServerNode → ServerNode)
    (hf : ∀ n, (f n).last_heartbeat = n.last_heartbeat) :
    ((updNode s i f).nodes j).last_heartbeat = (s.nodes j).last_heartbeat := by
  by_cases h : j = i <;> simp [updNode, h, hf]

theorem updNode_status_preserve (s : MState) (i j : Nat) (f : ServerNode → ServerNode)
    (hf : ∀ n, (f n).server_status = n.server_status) :
    ((updNode s i f).nodes j).server_status = (s.nodes j).server_status := by
  by_cases h : j = i <;> simp [updNode, h, hf]

theorem psm_last_heartbeat (s : MState) (m : MServerMsg) (ok : Bool) (i : Nat)
    (h : ¬ isHeartbeatFor i (CoordEvent.srvMsg m ok)) :
    (((process_server_message s m ok).1).nodes i).last_heartbeat =
      (s.nodes i).last_heartbeat := by
  cases m with
  | heartbeat sid now =>
      have hsd : ¬ sid = i := by simpa [isHeartbeatFor] using h
      have hi : i ≠ sid := fun hh => hsd hh.symm
      simp [Mserver.process_server_message, updNode_nodes_ne _ _ _ _ hi]
  | updatedPrimary sid =>
      simp only [Mserver.process_server_message]
      split
      next =>
        dsimp only
        rw [hsp_last_heartbeat]
        exact updNode_lh_preserve _ _ _ _ (fun n => rfl)
      next =>
        dsimp only
        exact updNode_lh_preserve _ _ _ _ (fun n => rfl)
  | updatePrimaryFailed sid => rfl
  | updatedSecondary sid =>
      simp only [Mserver.process_server_message]
      split
      next =>
        dsimp only
        rw [hsp_last_heartbeat]
        exact updNode_lh_preserve _ _ _ _ (fun n => rfl)
      next =>
        dsimp only
        exact updNode_lh_preserve _ _ _ _ (fun n => rfl)
  | updateSecondaryFailed sid => rfl

theorem psm_status_aux (t : MState) (a b i : Nat) (ok : Bool) (base : MState)
    (hbase : (t.nodes i).server_status = (base.nodes i).server_status) :
    ((handle_switch_primary t a b ok).nodes i).server_status =
      (base.nodes i).server_status ∨
    ((handle_switch_primary t a b ok).nodes i).server_status = KVState.online := by
  rcases hsp_status_or t a b i ok with h | h
  · left
    rw [h, hbase]
  · right
    exact h

theorem psm_status (s : MState) (m : MServerMsg) (ok : Bool) (i : Nat) :
    (((process_server_message s m ok).1).nodes i).server_status =
      (s.nodes i).server_status ∨
    (((process_server_message s m ok).1).nodes i).server_status = KVState.online := by
  cases m with
  | heartbeat sid now =>
      simp only [Mserver.process_server_message]
      left
      exact updNode_status_preserve _ _ _ _ (fun n => rfl)
  | updatedPrimary sid =>
      simp only [Mserver.process_server_message]
      split
      next =>
        dsimp only
        exact psm_status_aux _ _ _ _ _ _ (updNode_status_preserve _ _ _ _ (fun n => rfl))
      next =>
        dsimp only
        left
        exact updNode_status_preserve _ _ _ _ (fun n => rfl)
  | updatePrimaryFailed sid => exact Or.inl rfl
  | updatedSecondary sid =>
      simp only [Mserver.process_server_message]
      split
      next =>
        dsimp only
        exact psm_status_aux _ _ _ _ _ _ (updNode_status_preserve _ _ _ _ (fun n => rfl))
      next =>
        dsimp only
        left
        exact updNode_status_preserve _ _ _ _ (fun n => rfl)
  | updateSecondaryFailed sid => exact Or.inl rfl

theorem detect_node_zero (node : ServerNode) (now : Nat) (ok : Bool)
    (h : node.last_heartbeat = 0) : detect_node node now ok = node := by
  simp [detect_node, lh_zero_not_timed_out node h now]

theorem mtick_zero (s : MState) (now : Nat) (spawnOk : Nat → Bool) (i : Nat)
    (h : (s.nodes i).last_heartbeat = 0) :
    (mtick s now spawnOk).nodes i = s.nodes i := by
  show (if i < s.numServers then detect_node (s.nodes i) now (spawnOk i)
        else s.nodes i) = s.nodes i
  by_cases hi : i < s.numServers <;> simp [hi, detect_node_zero _ _ _ h]

theorem mstep_preserve (i : Nat) (s : MState) (e : CoordEvent)
    (hnb : ¬ isHeartbeatFor i e)
    (h0 : (s.nodes i).last_heartbeat = 0)
    (hst : (s.nodes i).server_status ≠ KVState.failed) :
    ((mstep s e).nodes i).last_heartbeat = 0 ∧
    ((mstep s e).nodes i).server_status ≠ KVState.failed := by
  cases e with
  | srvMsg m ok =>
      refine ⟨?_, ?_⟩
      · rw [show mstep s (CoordEvent.srvMsg m ok) = (process_server_message s m ok).1
            from rfl, psm_last_heartbeat s m ok i hnb]
        exact h0
      · rcases psm_status s m ok i with h | h
        · rw [show mstep s (CoordEvent.srvMsg m ok) = (process_server_message s m ok).1
              from rfl, h]
          exact hst
        · rw [show mstep s (CoordEvent.srvMsg m ok) = (process_server_message s m ok).1
              from rfl, h]
          simp
  | tick now spawnOk =>
      rw [show mstep s (CoordEvent.tick now spawnOk) = mtick s now spawnOk from rfl,
          mtick_zero s now spawnOk i h0]
      exact ⟨h0, hst⟩
  | clientLocate k => exact ⟨h0, hst⟩

theorem mrun_preserve (i : Nat) (es : List CoordEvent) :
    ∀ s : MState, (∀ e ∈ es, ¬ isHeartbeatFor i e) →
      (s.nodes i).last_heartbeat = 0 →
      (s.nodes i).server_status ≠ KVState.failed →
      ((mrun s es).nodes i).last_heartbeat = 0 ∧
      ((mrun s es).nodes i).server_status ≠ KVState.failed := by
  induction es with
  | nil => exact fun s _ h0 hst => ⟨h0, hst⟩
  | cons e tl ih =>
      intro s hes h0 hst
      have he : ¬ isHeartbeatFor i e := hes e (List.mem_cons_self e tl)
      have hstep := mstep_preserve i s e he h0 hst
      exact ih (mstep s e) (fun x hx => hes x (List.mem_cons_of_mem e hx)) hstep.1 hstep.2

theorem mrun_locates_id (es : List CoordEvent) :
    ∀ s : MState, (∀ e ∈ es, ∃ kk, e = CoordEvent.clientLocate kk) →
      mrun s es = s := by
  induction es with
  | nil => exact fun s _ => rfl
  | cons e tl ih =>
      intro s hes
      obtain ⟨kk, rfl⟩ := hes e (List.mem_cons_self e tl)
      exact ih s (fun x hx => hes x (List.mem_cons_of_mem _ hx))

/-- C2: processing an UPDATED_PRIMARY from Sb (resp. an UPDATED_SECONDARY from
Sc) begins the primary switch (the call to handle_switch_primary, which sets
ignore_put and sends SWITCH_PRIMARY) exactly when the other acknowledgment for
the affected shard has already been recorded: the switch-started flag equals
the previously recorded value of the complementary acknowledgment flag.  Hence
the switch starts at whichever of the two acknowledgments arrives second, in
either order, and receipt of only one of them never starts it. -/
theorem c2_switch_starts_iff_both_acks (s : Mserver.MState) (sid : Nat) (ok : Bool) :
    ((Mserver.process_server_message s (MServerMsg.updatedPrimary sid) ok).2 =
      (s.nodes (primary_server_id sid s.numServers)).updated_secondary_accepted) ∧
    ((Mserver.process_server_message s (MServerMsg.updatedSecondary sid) ok).2 =
      (s.nodes (secondary_server_id sid s.numServers)).updated_primary_accepted) := by
  constructor
  · simp only [Mserver.process_server_message, updNode_nodes_same]
    cases hflag :
        (s.nodes (primary_server_id sid s.numServers)).updated_secondary_accepted <;>
      simp [hflag]
  · simp only [Mserver.process_server_message, updNode_nodes_same]
    cases hflag :
        (s.nodes (secondary_server_id sid s.numServers)).updated_primary_accepted <;>
      simp [hflag]

/-- C3: the failure-detection comparison of run_mserver_loop uses the constant
heartbeat_check_diff = 2, not the -t option: with -t 10 (so server_timeout is
10), a node whose last heartbeat is 3 seconds old is already declared failed
even though 3 does not exceed the configured timeout.  The -t option (parsed
into server_timeout, default 3) is never consulted by the detector. -/
theorem c3_timeout_option_ignored :
    Mserver.effective_server_timeout 10 = 10 ∧
    Mserver.heartbeat_timed_out { exNode 1000 with last_heartbeat := 10 } 13 = true ∧
    13 - ({ exNode 1000 with last_heartbeat := 10 } : Mserver.ServerNode).last_heartbeat ≤
      Mserver.effective_server_timeout 10 ∧
    Mserver.heartbeat_check_diff = 2 ∧
    Mserver.default_server_timeout = 3 := by
  decide

/-- C9: a server whose recorded last_heartbeat is still zero is never declared
FAILED by the coordinator, no matter which events occur and how much time
elapses, so long as no HEARTBEAT from that server id is processed: its
last_heartbeat stays zero, the detector's timeout test is false at every clock
value, and its status never becomes KV_SERVER_FAILED. -/
theorem c9_no_heartbeat_never_failed (i : Nat) (s0 : Mserver.MState)
    (es : List CoordEvent)
    (h0 : (s0.nodes i).last_heartbeat = 0)
    (hst : (s0.nodes i).server_status ≠ KVState.failed)
    (hes : ∀ e ∈ es, ¬ isHeartbeatFor i e) :
    ((mrun s0 es).nodes i).last_heartbeat = 0 ∧
    (∀ now, Mserver.heartbeat_timed_out ((mrun s0 es).nodes i) now = false) ∧
    ((mrun s0 es).nodes i).server_status ≠ KVState.failed := by
  obtain ⟨h1, h2⟩ := mrun_preserve i es s0 hes h0 hst
  exact ⟨h1, fun now => lh_zero_not_timed_out _ h1 now, h2⟩

/-- Witness for C9 at a concrete input: in the fresh 3-server state, a
detection pass at time 100 does not touch server 0 (no heartbeat was ever
recorded from it). -/
theorem c9_witness :
    ((mrun mAllOnline [CoordEvent.tick 100 (fun _ => true)]).nodes 0).last_heartbeat = 0 ∧
    (∀ now, Mserver.heartbeat_timed_out
      ((mrun mAllOnline [CoordEvent.tick 100 (fun _ => true)]).nodes 0) now = false) ∧
    ((mrun mAllOnline [CoordEvent.tick 100 (fun _ => true)]).nodes 0).server_status ≠
      KVState.failed :=
  c9_no_heartbeat_never_failed 0 mAllOnline [CoordEvent.tick 100 (fun _ => true)]
    (by decide) (by decide)
    (by
      intro e he
      simp only [List.mem_singleton] at he
      subst he
      simp [isHeartbeatFor])

/-- C5 counterexample: in a reachable state where both server 0 and its
secondary replica (server 1) are FAILED, a locate for a key owned by server 0
is answered with server 1's host and client port, a server whose status is
FAILED — contradicting the claim that an answered locate never returns a
FAILED server. -/
theorem c5_counterexample :
    Mserver.routed_server_id mTwoFailed 0 = 1 ∧
    Mserver.process_client_message mTwoFailed 0 = some ("localhost", 1001) ∧
    (mTwoFailed.nodes 1).server_status = KVState.failed := by
  decide

/-- C5 (amended): whenever the owner of k is not ONLINE the coordinator
routes the locate to the owner's secondary replica, and the routed server is
not FAILED provided that secondary replica is itself not FAILED (as under a
single failure); the source never checks the secondary's own status. -/
theorem c5_locate_routed_not_failed (s : Mserver.MState) (k : Nat)
    (hsec : (s.nodes (secondary_server_id (key_server_id k s.numServers)
        s.numServers)).server_status ≠ KVState.failed) :
    ((s.nodes (key_server_id k s.numServers)).server_status ≠ KVState.online →
      Mserver.routed_server_id s k =
        secondary_server_id (key_server_id k s.numServers) s.numServers) ∧
    (s.nodes (Mserver.routed_server_id s k)).server_status ≠ KVState.failed := by
  by_cases h : (s.nodes (key_server_id k s.numServers)).server_status = KVState.online
  · have hr : Mserver.routed_server_id s k = key_server_id k s.numServers := by
      simp [Mserver.routed_server_id, h]
    refine ⟨fun hcon => absurd h hcon, ?_⟩
    rw [hr, h]
    simp
  · have hr : Mserver.routed_server_id s k =
        secondary_server_id (key_server_id k s.numServers) s.numServers := by
      simp [Mserver.routed_server_id, h]
    exact ⟨fun _ => hr, hr ▸ hsec⟩

/-- Witness for C5 (amended) at a concrete input: all three servers ONLINE,
key 0: the routed server is not FAILED. -/
theorem c5_witness :
    ((mAllOnline.nodes (key_server_id 0 mAllOnline.numServers)).server_status ≠
        KVState.online →
      Mserver.routed_server_id mAllOnline 0 =
        secondary_server_id (key_server_id 0 mAllOnline.numServers) mAllOnline.numServers) ∧
    (mAllOnline.nodes (Mserver.routed_server_id mAllOnline 0)).server_status ≠
      KVState.failed :=
  c5_locate_routed_not_failed mAllOnline 0 (by decide)

/-- C6: (1) while the failed shard's primary is not ONLINE and its secondary
replica carries the ignore_put flag (the configuration handle_switch_primary
installs for the duration of the switch), the coordinator answers no locate
request whose key is owned by that shard — the request is dropped; (2) when
the switch completes successfully (send_set_secondary to the replacement
returns success), ignore_put is cleared on both the replacement Saa and the
surviving secondary Sb, Saa is marked ONLINE, and a locate for a key owned by
Saa is answered with Saa's host and client port again. -/
theorem c6_quiesce_and_resume (s : Mserver.MState) (k Saa Sb : Nat) :
    (((s.nodes (key_server_id k s.numServers)).server_status ≠ KVState.online ∧
      (s.nodes (secondary_server_id (key_server_id k s.numServers)
          s.numServers)).ignore_put = true) →
      Mserver.process_client_message s k = none) ∧
    (key_server_id k s.numServers = Saa →
      ((handle_switch_primary s Saa Sb true).nodes Saa).ignore_put = false ∧
      ((handle_switch_primary s Saa Sb true).nodes Sb).ignore_put = false ∧
      ((handle_switch_primary s Saa Sb true).nodes Saa).server_status = KVState.online ∧
      Mserver.process_client_message (handle_switch_primary s Saa Sb true) k =
        some (strip_user (s.nodes Saa).host_name, (s.nodes Saa).cport)) := by
  constructor
  · rintro ⟨hoff, hflag⟩
    have hr : Mserver.routed_server_id s k =
        secondary_server_id (key_server_id k s.numServers) s.numServers := by
      simp [Mserver.routed_server_id, hoff]
    simp [Mserver.process_client_message, hr, hflag]
  · intro hk
    refine ⟨hsp_true_ignore_a s Saa Sb, hsp_true_ignore_b s Saa Sb,
      hsp_true_status_a s Saa Sb, ?_⟩
    have hns := hsp_numServers s Saa Sb true
    have hr : Mserver.routed_server_id (handle_switch_primary s Saa Sb true) k = Saa := by
      unfold Mserver.routed_server_id
      rw [hns, hk]
      simp [hsp_true_status_a s Saa Sb]
    simp [Mserver.process_client_message, hr, hsp_true_ignore_a s Saa Sb,
      hsp_host_name, hsp_cport]

/-- Witness for C6 at concrete inputs: in the failed-switch state over
mTwoFailed (flags set on servers 0 and 1) a locate for key 0 is dropped; and
after a successful switch for shard 0 (replacement 0, surviving secondary 1)
over mTwoFailed, the flags are clear, server 0 is ONLINE and the locate for
key 0 is answered with server 0's address. -/
theorem c6_witness :
    Mserver.process_client_message (handle_switch_primary mTwoFailed 0 1 false) 0 = none ∧
    ((handle_switch_primary mTwoFailed 0 1 true).nodes 0).ignore_put = false ∧
    ((handle_switch_primary mTwoFailed 0 1 true).nodes 1).ignore_put = false ∧
    ((handle_switch_primary mTwoFailed 0 1 true).nodes 0).server_status = KVState.online ∧
    Mserver.process_client_message (handle_switch_primary mTwoFailed 0 1 true) 0 =
      some (strip_user (mTwoFailed.nodes 0).host_name, (mTwoFailed.nodes 0).cport) :=
  ⟨(c6_quiesce_and_resume (handle_switch_primary mTwoFailed 0 1 false) 0 0 1).1
      (by constructor <;> decide),
   (c6_quiesce_and_resume mTwoFailed 0 0 1).2 (by decide)⟩

/-- C10: when send_set_secondary to the replacement fails during the switch,
handle_switch_primary returns early: ignore_put remains set on both the
replacement Saa and the surviving secondary Sb, Saa's status is unchanged (it
is never marked ONLINE), every locate whose key routes to Saa or Sb is
dropped with no response, and any further sequence of client locate requests
leaves the coordinator state unchanged, so the drops persist indefinitely. -/
theorem c10_failed_switch_drops_locates (s : Mserver.MState) (Saa Sb k : Nat)
    (es : List CoordEvent)
    (hes : ∀ e ∈ es, ∃ kk, e = CoordEvent.clientLocate kk) :
    ((handle_switch_primary s Saa Sb false).nodes Saa).ignore_put = true ∧
    ((handle_switch_primary s Saa Sb false).nodes Sb).ignore_put = true ∧
    ((handle_switch_primary s Saa Sb false).nodes Saa).server_status =
      (s.nodes Saa).server_status ∧
    ((Mserver.routed_server_id (handle_switch_primary s Saa Sb false) k = Saa ∨
      Mserver.routed_server_id (handle_switch_primary s Saa Sb false) k = Sb) →
      Mserver.process_client_message (handle_switch_primary s Saa Sb false) k = none) ∧
    mrun (handle_switch_primary s Saa Sb false) es = handle_switch_primary s Saa Sb false := by
  refine ⟨hsp_false_ignore_a s Saa Sb, hsp_false_ignore_b s Saa Sb,
    hsp_false_status s Saa Sb Saa, ?_, mrun_locates_id es _ hes⟩
  rintro (hr | hr) <;>
    simp [Mserver.process_client_message, hr, hsp_false_ignore_a, hsp_false_ignore_b]

/-- Witness for C10 at a concrete input: failed switch for shard 0 over
mTwoFailed, followed by one more locate event. -/
theorem c10_witness :
    ((handle_switch_primary mTwoFailed 0 1 false).nodes 0).ignore_put = true ∧
    ((handle_switch_primary mTwoFailed 0 1 false).nodes 1).ignore_put = true ∧
    ((handle_switch_primary mTwoFailed 0 1 false).nodes 0).server_status =
      (mTwoFailed.nodes 0).server_status ∧
    ((Mserver.routed_server_id (handle_switch_primary mTwoFailed 0 1 false) 0 = 0 ∨
      Mserver.routed_server_id (handle_switch_primary mTwoFailed 0 1 false) 0 = 1) →
      Mserver.process_client_message (handle_switch_primary mTwoFailed 0 1 false) 0 = none) ∧
    mrun (handle_switch_primary mTwoFailed 0 1 false) [CoordEvent.clientLocate 5] =
      handle_switch_primary mTwoFailed 0 1 false :=
  c10_failed_switch_drops_locates mTwoFailed 0 1 0 [CoordEvent.clientLocate 5]
    (by
      intro e he
      simp only [List.mem_singleton] at he
      subst he
      exact ⟨5, rfl⟩)

/-- C8 counterexample: two locate requests for the same key 0 with the same
number of servers receive different (host, client-port) answers once history
includes a failure of server 0: before the failure the answer is server 0's
address, after it the answer is server 1's.  The locate answer therefore
depends on the history of prior failures, not only on k and N. -/
theorem c8_counterexample :
    (mrun mAllOnline failTrace).numServers = mAllOnline.numServers ∧
    Mserver.process_client_message mAllOnline 0 = some ("localhost", 1000) ∧
    Mserver.process_client_message (mrun mAllOnline failTrace) 0 =
      some ("localhost", 1001) ∧
    Mserver.process_client_message mAllOnline 0 ≠
      Mserver.process_client_message (mrun mAllOnline failTrace) 0 := by
  decide

/-- C8 (amended): the owner computation key_server_id is a pure function of
the key and N, but the locate answer also depends on the dynamic server
statuses and ignore flags; in any state in which every server is ONLINE with
its ignore flag clear, the answer is the owner's (host, client-port) — a
function of k, N and the static configuration only. -/
theorem c8_locate_pure_when_all_online (s : Mserver.MState) (k : Nat)
    (hn : 0 < s.numServers)
    (hall : ∀ i, i < s.numServers →
      (s.nodes i).server_status = KVState.online ∧ (s.nodes i).ignore_put = false) :
    Mserver.process_client_message s k =
      some (strip_user (s.nodes (key_server_id k s.numServers)).host_name,
            (s.nodes (key_server_id k s.numServers)).cport) := by
  have howner : key_server_id k s.numServers < s.numServers := Nat.mod_lt _ hn
  obtain ⟨hst, hig⟩ := hall _ howner
  have hr : Mserver.routed_server_id s k = key_server_id k s.numServers := by
    simp [Mserver.routed_server_id, hst]
  simp [Mserver.process_client_message, hr, hig]

/-- Witness for C8 (amended) at a concrete input: key 7 in the all-ONLINE
state is answered with its owner's (server 1's) address. -/
theorem c8_witness :
    Mserver.process_client_message mAllOnline 7 =
      some (strip_user (mAllOnline.nodes (key_server_id 7 mAllOnline.numServers)).host_name,
            (mAllOnline.nodes (key_server_id 7 mAllOnline.numServers)).cport) :=
  c8_locate_pure_when_all_online mAllOnline 7 (by decide) (by decide)

theorem hash_get_put_same (tbl : List (Nat × String)) (k : Nat) (v : String) :
    hash_get (hash_put tbl k v) k = some v := by
  simp [hash_get, hash_put]

theorem secondary_server_id_ne_owner (k n : Nat) (hn : 2 ≤ n) :
    secondary_server_id (key_server_id k n) n ≠ key_server_id k n := by
  unfold key_server_id secondary_server_id
  have hlt : k % n < n := Nat.mod_lt _ (by omega)
  rcases Nat.lt_or_ge (k % n + 1) n with h | h
  · rw [Nat.mod_eq_of_lt h]
    omega
  · have he : k % n + 1 = n := by omega
    rw [he, Nat.mod_self]
    omega

/-- C1 counterexample: a PUT handled by its owner whose synchronous forward
comes back with a non-SUCCESS status is answered with NO response at all (the
source returns before send_msg and the one-shot connection is closed), not
with a SERVER_FAILURE reply as the claim states. -/
theorem c1_counterexample :
    (Server.process_client_message exSrv exPutReq
        (ForwardOutcome.reply OpStatus.serverFailure)).1 = none ∧
    (Server.process_client_message exSrv exPutReq
        (ForwardOutcome.reply OpStatus.serverFailure)).1 ≠
      some { status := OpStatus.serverFailure, value := "" } := by
  decide

/-- C1 (amended): for every client PUT that passes the ownership check, if the
synchronous forward to the replica partner is attempted and the partner's
reply is non-SUCCESS or the forward connection fails, the server sends no
reply to the client at all (in particular it never replies SUCCESS), and the
newly inserted value is retained in the local table that was written. -/
theorem c1_put_forward_failure_no_reply (s : Server.ServerState)
    (req : OperationRequest) (fwd : ForwardOutcome)
    (hty : req.optype = OpType.opPut)
    (hacc : ¬ Server.client_key_rejected s req)
    (hfwd : fwd = ForwardOutcome.connFail ∨
            ∃ st, fwd = ForwardOutcome.reply st ∧ st ≠ OpStatus.success) :
    (Server.process_client_message s req fwd).1 = none ∧
    hash_get (if Server.secondary_as_primary s req then
                (Server.process_client_message s req fwd).2.secondary_hash
              else (Server.process_client_message s req fwd).2.primary_hash)
        req.key = some req.value := by
  rcases hfwd with rfl | ⟨st, rfl, hne⟩
  · by_cases hsap : Server.secondary_as_primary s req <;>
      simp [Server.process_client_message, hacc, hty, hsap, hash_get_put_same]
  · by_cases hsap : Server.secondary_as_primary s req <;>
      simp [Server.process_client_message, hacc, hty, hsap, hne, hash_get_put_same]

/-- Witness for C1 (amended) at a concrete input: server 0 of 3, PUT of key 0
with a failed forward connection: no reply, value "v" retained. -/
theorem c1_witness :
    exPutReq.optype = OpType.opPut ∧
    ¬ Server.client_key_rejected exSrv exPutReq ∧
    ((Server.process_client_message exSrv exPutReq ForwardOutcome.connFail).1 = none ∧
     hash_get (if Server.secondary_as_primary exSrv exPutReq then
                 (Server.process_client_message exSrv exPutReq
                     ForwardOutcome.connFail).2.secondary_hash
               else (Server.process_client_message exSrv exPutReq
                     ForwardOutcome.connFail).2.primary_hash)
         exPutReq.key = some exPutReq.value) :=
  ⟨by decide, by decide,
   c1_put_forward_failure_no_reply exSrv exPutReq ForwardOutcome.connFail
     (by decide) (by decide) (Or.inl rfl)⟩

/-- C7: (1) a client operation for a key whose owner is not this server is
rejected with SERVER_FAILURE unless the server is acting as interim primary
for the owner's shard (it is the owner's secondary and is in the
KV_UPDATING_PRIMARY state); (2) a GET for a key this server owns but does not
hold returns KEY_NOT_FOUND; (3) in the interim-primary case a GET is not
rejected with SERVER_FAILURE. -/
theorem c7_owner_check (s : Server.ServerState) (req : OperationRequest)
    (fwd : ForwardOutcome) :
    ((key_server_id req.key s.num_servers ≠ s.server_id ∧
      ¬ Server.secondary_as_primary s req) →
      (Server.process_client_message s req fwd).1 =
        some { status := OpStatus.serverFailure, value := "" }) ∧
    ((req.optype = OpType.opGet ∧ key_server_id req.key s.num_servers = s.server_id ∧
      2 ≤ s.num_servers ∧ hash_get s.primary_hash req.key = none) →
      (Server.process_client_message s req fwd).1 =
        some { status := OpStatus.keyNotFound, value := "" }) ∧
    ((req.optype = OpType.opGet ∧ Server.secondary_as_primary s req) →
      (Server.process_client_message s req fwd).1 ≠
        some { status := OpStatus.serverFailure, value := "" }) := by
  refine ⟨?_, ?_, ?_⟩
  · rintro ⟨hko, hnsap⟩
    have hrej : Server.client_key_rejected s req := by
      by_cases hstate : s.state = KVState.updatingPrimary
      · exact Or.inr ⟨hstate, hko, fun hsec => hnsap ⟨hstate, hsec⟩⟩
      · exact Or.inl ⟨hstate, hko⟩
    simp [Server.process_client_message, hrej]
  · rintro ⟨hty, hown, hn2, hget⟩
    have hnsap : ¬ Server.secondary_as_primary s req := by
      rintro ⟨hstate, hsec⟩
      rw [hown] at hsec
      exact secondary_server_id_ne_owner req.key s.num_servers hn2 (hown ▸ hsec)
    have hrej : ¬ Server.client_key_rejected s req := by
      rintro (⟨_, hne⟩ | ⟨_, hne, _⟩) <;> exact hne hown
    simp [Server.process_client_message, hrej, hty, hnsap, hget]
  · rintro ⟨hty, hsap⟩
    have hrej : ¬ Server.client_key_rejected s req := by
      rintro (⟨hstone, _⟩ | ⟨_, _, hne⟩)
      · exact hstone hsap.1
      · exact hne hsap.2
    simp only [Server.process_client_message, hrej, if_false, hty]
    cases hget : hash_get (if Server.secondary_as_primary s req then
        s.secondary_hash else s.primary_hash) req.key <;>
      simp [hrej, hget]

/-- Witness for C7 at concrete inputs: a GET for key 1 at server 0 of 3 is
rejected SERVER_FAILURE; a GET for the owned but absent key 0 at server 0
returns KEY_NOT_FOUND; a GET for key 0 at server 1 acting as interim primary
(KV_UPDATING_PRIMARY) is not rejected. -/
theorem c7_witness :
    (Server.process_client_message exSrv exGetReq1 ForwardOutcome.noPartner).1 =
      some { status := OpStatus.serverFailure, value := "" } ∧
    (Server.process_client_message exSrv exGetReq0 ForwardOutcome.noPartner).1 =
      some { status := OpStatus.keyNotFound, value := "" } ∧
    (Server.process_client_message exSrvInterim exGetReq0 ForwardOutcome.noPartner).1 ≠
      some { status := OpStatus.serverFailure, value := "" } :=
  ⟨(c7_owner_check exSrv exGetReq1 ForwardOutcome.noPartner).1 ⟨by decide, by decide⟩,
   (c7_owner_check exSrv exGetReq0 ForwardOutcome.noPartner).2.1
     ⟨rfl, by decide, by decide, by decide⟩,
   (c7_owner_check exSrvInterim exGetReq0 ForwardOutcome.noPartner).2.2
     ⟨rfl, by decide⟩⟩

/-- C4 counterexample: streaming a one-entry table produces exactly one PUT on
the peer connection and no NOOP at all — contradicting the claim that a NOOP
is sent after the last entry. -/
theorem c4_counterexample :
    Server.send_table_msgs [(0, "a")] = [Server.PeerMsg.putMsg 0 "a"] ∧
    Server.PeerMsg.noopMsg ∉ Server.send_table_msgs [(0, "a")] := by
  decide

/-- C4 (amended): the surviving server iterates the chosen hash table issuing
one PUT per (key, value) to the replacement — the stream has one message per
entry, each a PUT of an entry, and contains no NOOP; after the stream it
sends UPDATED_PRIMARY / UPDATED_SECONDARY to the coordinator (not a NOOP on
the peer connection, which stays open as the new replica link); a peer that
does receive a NOOP closes that connection with no response. -/
theorem c4_stream_no_noop (table : List (Nat × String)) (sid : Nat)
    (s : Server.ServerState) (k : Nat) (v : String) :
    (Server.send_table_msgs table).length = table.length ∧
    (∀ m ∈ Server.send_table_msgs table,
      ∃ kv ∈ table, m = Server.PeerMsg.putMsg kv.1 kv.2) ∧
    Server.PeerMsg.noopMsg ∉ Server.send_table_msgs table ∧
    Server.send_table_ctrl false sid = MServerMsg.updatedPrimary sid ∧
    Server.send_table_ctrl true sid = MServerMsg.updatedSecondary sid ∧
    (Server.process_server_message s
        { optype := OpType.opNoop, key := k, value := v }).1 = false ∧
    (Server.process_server_message s
        { optype := OpType.opNoop, key := k, value := v }).2.1 = none := by
  refine ⟨?_, ?_, ?_, rfl, rfl, rfl, rfl⟩
  · simp [Server.send_table_msgs]
  · intro m hm
    simp only [Server.send_table_msgs, List.mem_map] at hm
    obtain ⟨kv, hkv, rfl⟩ := hm
    exact ⟨kv, hkv, rfl⟩
  · simp [Server.send_table_msgs]

/-- Witness for C4 (amended) at a concrete input: a one-entry table. -/
theorem c4_witness :
    (Server.send_table_msgs [(0, "a")]).length = 1 ∧
    Server.send_table_ctrl false 2 = MServerMsg.updatedPrimary 2 ∧
    (Server.process_server_message exSrv
        { optype := OpType.opNoop, key := 0, value := "" }).1 = false :=
  ⟨(c4_stream_no_noop [(0, "a")] 2 exSrv 0 "").1,
   (c4_stream_no_noop [(0, "a")] 2 exSrv 0 "").2.2.2.1,
   (c4_stream_no_noop [(0, "a")] 2 exSrv 0 "").2.2.2.2.2.1⟩
